import Mathlib

/-!
Shallow embedding of `src/main.rs` of proxy-optional-webdav: a single-upstream
HTTP reverse proxy for WebDAV clients.  Pure data flow is embedded directly;
the network is an oracle parameter; library calls (the `http` crate's URI
handling, `getopts`, `tokio::time::timeout`, `std` address parsing) are
modelled from their documented behaviour, noted at each definition.
-/

namespace Webdav

/-- `tokio::time::Duration`, carried only as whole seconds here since the
source only ever builds `Duration::from_secs(5)`. -/
structure Duration where
  secs : Nat
deriving DecidableEq, Repr

def Duration.from_secs (n : Nat) : Duration := ⟨n⟩

/-- Whether string `p` is a prefix of string `s` (`str::starts_with`). -/
def starts_with (s p : String) : Bool :=
  p.data.isPrefixOf s.data

/-- Whether character `c` occurs in string `s` (`str::contains` on a
single character, as main.rs uses it). -/
def str_contains (s : String) (c : Char) : Bool :=
  s.data.contains c

/-- Split a character list at every occurrence of `c`; always returns at
least one (possibly empty) piece. -/
def split_char (c : Char) : List Char → List (List Char)
  | [] => [[]]
  | a :: rest =>
    let r := split_char c rest
    if a == c then [] :: r
    else
      match r with
      | [] => [[a]]
      | h :: t => (a :: h) :: t

/-- Split a string at every occurrence of character `c`. -/
def split_on_char (s : String) (c : Char) : List String :=
  (split_char c s.data).map (fun l => ⟨l⟩)

/-- Decimal digits to a number: `some` exactly when `s` is nonempty and
all digits (the core of `str::parse` for unsigned integers). -/
def str_to_nat? (s : String) : Option Nat :=
  if !s.data.isEmpty && s.data.all Char.isDigit then
    some (s.data.foldl (fun n ch => n * 10 + (ch.toNat - 48)) 0)
  else
    none

/-- `str::to_uppercase`: per-character uppercasing; on the ASCII reason
strings the source uses this agrees with Rust (whose mapping is the full
Unicode one). -/
def rust_to_uppercase (s : String) : String :=
  ⟨s.data.map Char.toUpper⟩

/-- The three components of `http::uri::Parts` used by the source
(`scheme`, `authority`, `path_and_query`), each optional, components kept
as raw strings. -/
structure UriParts where
  scheme : Option String
  authority : Option String
  pathAndQuery : Option String
deriving DecidableEq, Repr

/-- `http::Uri::from_parts` (http 0.2, the version hyper 0.14 re-exports):
when a scheme is present it requires both an authority and a
`path_and_query`, returning `Err(AuthorityMissing)` / `Err(PathAndQueryMissing)`
otherwise; without a scheme, an authority combined with a `path_and_query`
is also rejected (`Err(SchemeMissing)`).  `none` is the error case. -/
def Uri.from_parts (p : UriParts) : Option UriParts :=
  match p.scheme with
  | some _ =>
    match p.authority, p.pathAndQuery with
    | some _, some _ => some p
    | _, _ => none
  | none =>
    match p.authority, p.pathAndQuery with
    | some _, some _ => none
    | _, _ => some p

/-- `Display` for `http::Uri`: scheme followed by `://` when present, then
the authority, then the path-and-query string. -/
def Uri.render (u : UriParts) : String :=
  (match u.scheme with
   | some s => s ++ "://"
   | none => "") ++
  (match u.authority with
   | some a => a
   | none => "") ++
  (match u.pathAndQuery with
   | some q => q
   | none => "")

/-- `format!("http://{}", remote).parse::<Uri>()` on success (main.rs line
126): scheme `http`, authority the remote string, empty path-and-query
(the http crate stores an empty `PathAndQuery` for `http://host:port`). -/
def upstream_uri (remote : String) : UriParts :=
  { scheme := some "http", authority := some remote, pathAndQuery := some "" }

/-- An abstract `hyper::Error`: the embedding never inspects it (the source
matches every error with `Err(_)`), so one constructor per broad failure
kind plus an infinite family of further kinds. -/
inductive HyperError where
  | connectionRefused
  | connectionReset
  | hostUnreachable
  | malformedResponse
  | otherKind (code : Nat)
deriving DecidableEq, Repr

/-- A `hyper::Response<Body>`: status, header list (name-value pairs in
order, duplicates allowed, as in `HeaderMap`), body taken as a string. -/
structure Response where
  status : Nat
  headers : List (String × String)
  body : String
deriving DecidableEq, Repr

/-- A `hyper::Request<Body>`: method, URI (origin-form requests carry only
`path_and_query`; authority-form CONNECT targets carry only `authority`),
header list, body. -/
structure Request where
  method : String
  uri : UriParts
  headers : List (String × String)
  body : String
deriving DecidableEq, Repr

/-- The XML body built by `create_error_response` (main.rs lines 45-59);
the `format!` literal with its two holes filled by `reason` and
`reason.to_uppercase()`.  `str::to_uppercase` is Unicode uppercasing, which
agrees with `String.toUpper` on the ASCII reasons the source uses. -/
def error_body (reason : String) : String :=
  "<?xml version=\"1.0\" encoding=\"utf-8\"?>\n<d:multistatus xmlns:d=\"DAV:\">\n  <d:response>\n    <d:href>/" ++ reason ++
  "/</d:href>\n    <d:propstat>\n      <d:prop>\n        <d:displayname>" ++ rust_to_uppercase reason ++
  "</d:displayname>\n        <d:resourcetype><d:collection/></d:resourcetype>\n      </d:prop>\n      <d:status>HTTP/1.1 200 OK</d:status>\n    </d:propstat>\n  </d:response>\n</d:multistatus>"

/-- `create_error_response` (main.rs lines 44-65): always `Ok` of a 207
response with the fixed content-type header and the templated XML body
(the `Response::builder()` chain cannot fail on these fixed inputs). -/
def create_error_response (reason : String) : Except HyperError Response :=
  .ok { status := 207
        headers := [("Content-Type", "application/xml; charset=utf-8")]
        body := error_body reason }

/-- Result of `timeout(Duration::from_secs(5), client.request(new_req))`:
either the inner call completed (with the upstream response or a
`hyper::Error`) within the budget, or the budget elapsed first. -/
inductive RaceOutcome where
  | completed (result : Except HyperError Response)
  | elapsed
deriving Repr

/-- Lines 20-27 of main.rs: the outgoing request is built with the inbound
method, the composed URI and the inbound body (headers start empty in the
builder), then its header map is wholly overwritten with the clone of the
inbound headers taken at line 12. -/
def build_outgoing (req : Request) (new_uri : UriParts) : Request :=
  let new_req : Request :=
    { method := req.method, uri := new_uri, headers := [], body := req.body }
  { new_req with headers := req.headers }

/-- `proxy_request` (main.rs lines 9-41).  `upstreamIo` is the network
oracle: given the timeout budget and the outgoing request it reports how
the race at line 30 came out.  The outer `Option` models panics: `none` is
the `.expect("valid URI")` panic at line 17, after which no response is
produced; `some` carries the function's `Result` value. -/
def proxy_request (req : Request) (upstream_base_uri : UriParts)
    (upstreamIo : Duration → Request → RaceOutcome) :
    Option (Except HyperError Response) :=
  match Uri.from_parts
      { upstream_base_uri with pathAndQuery := req.uri.pathAndQuery } with
  | none => none
  | some new_uri =>
    let new_req := build_outgoing req new_uri
    some (match upstreamIo (Duration.from_secs 5) new_req with
      | .completed (.ok response) => .ok response
      | .completed (.error _) => create_error_response "closed"
      | .elapsed => create_error_response "timeout")

/-- Number of (possibly overlapping) occurrences of `pat` in `hay`. -/
def countSub : List Char → List Char → Nat
  | [], _ => 0
  | c :: rest, pat =>
    (if pat.isPrefixOf (c :: rest) then 1 else 0) + countSub rest pat

/-- Occurrence count of substring `pat` in string `hay`. -/
def countSubstr (hay pat : String) : Nat :=
  countSub hay.data pat.data

/-- Whether `pat` occurs in `hay` as a substring. -/
def occursIn (hay pat : String) : Bool :=
  decide (0 < countSubstr hay pat)

/-- `getopts::Matches` restricted to what main.rs reads: the free
(positional) arguments in order, and the values of the registered options
`-b, --bind` and `-l, --local-port`. -/
structure Matches where
  free : List String
  optB : Option String
  optL : Option String
deriving DecidableEq, Repr

/-- The `getopts::Fail` cases reachable with two optional
argument-taking options. -/
inductive GetoptsFail where
  | argumentMissing (name : String)
  | unrecognizedOption (name : String)
  | optionDuplicated (name : String)
deriving DecidableEq, Repr

/-- Records the value of a matched option; both options are registered
with `optopt` (at most one occurrence), so a second occurrence is
`Fail::OptionDuplicated`. -/
def getopts_set (m : Matches) (isBind : Bool) (name v : String) :
    Except GetoptsFail Matches :=
  if isBind then
    match m.optB with
    | some _ => .error (.optionDuplicated name)
    | none => .ok { m with optB := some v }
  else
    match m.optL with
    | some _ => .error (.optionDuplicated name)
    | none => .ok { m with optL := some v }

/-- `Options::parse` of the getopts crate, for the two options main.rs
registers (lines 83-96): left-to-right scan; `--` ends option parsing;
`--name=value` or `--name value` for long options; `-cVALUE` or
`-c VALUE` for short options (both registered shorts take a value, so no
flag grouping arises); unknown options fail; tokens that are not options
(including a lone `-`) are free arguments, which may interleave with
options. -/
def getopts_go (m : Matches) : List String → Except GetoptsFail Matches
  | [] => .ok m
  | a :: rest =>
    if a == "--" then
      .ok { m with free := m.free ++ rest }
    else if starts_with a "--" then
      match split_on_char (a.drop 2) '=' with
      | name :: v :: vrest =>
        if name == "bind" || name == "local-port" then
          match getopts_set m (name == "bind") name
              (String.intercalate "=" (v :: vrest)) with
          | .error e => .error e
          | .ok m2 => getopts_go m2 rest
        else .error (.unrecognizedOption name)
      | [name] =>
        if name == "bind" || name == "local-port" then
          match rest with
          | [] => .error (.argumentMissing name)
          | v :: rest2 =>
            match getopts_set m (name == "bind") name v with
            | .error e => .error e
            | .ok m2 => getopts_go m2 rest2
        else .error (.unrecognizedOption name)
      | [] => .error (.unrecognizedOption a)
    else if starts_with a "-" && a != "-" then
      let c := (a.drop 1).take 1
      if c == "b" || c == "l" then
        let name := if c == "b" then "bind" else "local-port"
        let attached := a.drop 2
        if attached == "" then
          match rest with
          | [] => .error (.argumentMissing name)
          | v :: rest2 =>
            match getopts_set m (c == "b") name v with
            | .error e => .error e
            | .ok m2 => getopts_go m2 rest2
        else
          match getopts_set m (c == "b") name attached with
          | .error e => .error e
          | .ok m2 => getopts_go m2 rest
      else .error (.unrecognizedOption c)
    else
      getopts_go { m with free := m.free ++ [a] } rest

/-- `opts.parse(&args[1..])` at main.rs line 97, starting from an empty
match set; `args` here is the argument vector without the program name. -/
def getopts_parse (args : List String) : Except GetoptsFail Matches :=
  getopts_go ⟨[], none, none⟩ args

/-- `std::net::IpAddr`, restricted to IPv4 (the textual IPv6 forms of
`IpAddr::parse` are not modelled; the claims exercise only the default
bind address and dotted-quad forms). -/
inductive IpAddr where
  | v4 (a b c d : Nat)
deriving DecidableEq, Repr

/-- `Display` for an IPv4 `IpAddr`. -/
def IpAddr.render : IpAddr → String
  | .v4 a b c d =>
    toString a ++ "." ++ toString b ++ "." ++ toString c ++ "." ++ toString d

/-- `std::net::SocketAddr`: an address and a port. -/
structure SocketAddr where
  ip : IpAddr
  port : Nat
deriving DecidableEq, Repr

/-- `Display` for `SocketAddr`. -/
def SocketAddr.render (s : SocketAddr) : String :=
  s.ip.render ++ ":" ++ toString s.port

/-- `str::parse::<u16>`: optional leading `+`, decimal digits only, value
at most 65535. -/
def parse_u16 (s : String) : Option Nat :=
  let t := if starts_with s "+" then s.drop 1 else s
  match str_to_nat? t with
  | some n => if n ≤ 65535 then some n else none
  | none => none

/-- One octet of a dotted-quad IPv4 literal: digits, value at most 255,
no leading zero (as `std` rejects them). -/
def ipv4_octet (s : String) : Option Nat :=
  match str_to_nat? s with
  | some n =>
    if n ≤ 255 && (s.length == 1 || !(starts_with s "0")) then some n else none
  | none => none

/-- `str::parse::<std::net::IpAddr>`, dotted-quad IPv4 forms only. -/
def parse_ip_addr (s : String) : Option IpAddr :=
  match split_on_char s '.' with
  | [a, b, c, d] =>
    match ipv4_octet a, ipv4_octet b, ipv4_octet c, ipv4_octet d with
    | some x, some y, some z, some w => some (.v4 x y z w)
    | _, _, _, _ => none
  | _ => none

/-- Set of characters the http crate accepts in a URI authority. -/
def is_authority_char (c : Char) : Bool :=
  c.isAlphanum ||
    [ '-', '.', '_', '~', '%', '!', '$', '&', '(', ')', '*', '+', ',', ';',
      '=', ':', '@', '[', ']' ].contains c

/-- Success of `format!("http://{}", remote).parse::<Uri>()` at main.rs
line 126, approximated as an authority character-class check on `remote`
(a `remote` containing further URI structure such as `/` is not
modelled; the claims only exercise plain `host:port` values). -/
def valid_authority (remote : String) : Bool :=
  remote != "" && remote.data.all is_authority_char

/-- Observable effects of `main` in order: prints to stderr/stdout, the
usage text (kept abstract), process exit with the non-zero status of
`exit(-1)`, panics from `.expect`/`.unwrap`, binding the listening socket,
and entering `server.await`. -/
inductive Effect where
  | eprintFail (e : GetoptsFail)
  | eprintLine (s : String)
  | printUsage
  | printLine (s : String)
  | exitNonZero
  | panicked (msg : String)
  | bindSocket (addr : SocketAddr)
  | serve
deriving DecidableEq, Repr

/-- `main` (main.rs lines 79-151) up to and including entering
`server.await`, as the trace of its observable effects; `args` is the
argument vector without the program name (main passes `&args[1..]` to the
option parsing).  Branches mirror the source order: option-parse failure
prints the failure and usage then exits; a free-argument count other
than one prints usage then exits; a remote without `:` prints the error
line then exits; then the local port, bind address and upstream URI are
resolved (each panicking on bad input), the upstream banner is printed,
the socket is bound at the configured address and port, the listening
banner is printed with that same configured address, and serving
begins. -/
def main_start (args : List String) : List Effect :=
  match getopts_parse args with
  | .error e => [.eprintFail e, .printUsage, .exitNonZero]
  | .ok m =>
    match m.free with
    | [remote] =>
      if str_contains remote ':' then
        match (match m.optL with
               | none => some 0
               | some s => parse_u16 s) with
        | none => [.panicked "aga"]
        | some local_port =>
          match (match m.optB with
                 | none => some (IpAddr.v4 127 0 0 1)
                 | some s => parse_ip_addr s) with
          | none => [.panicked "Failed to parse bind address"]
          | some bind_addr =>
            if valid_authority remote then
              let addr : SocketAddr := ⟨bind_addr, local_port⟩
              [.printLine ("The upstream is http://" ++ remote),
               .bindSocket addr,
               .printLine ("Listening on http://" ++ addr.render),
               .serve]
            else [.panicked "invalid upstream uri"]
      else [.eprintLine "A remote port is required (REMOTE_ADDR:PORT)",
            .exitNonZero]
    | _ => [.printUsage, .exitNonZero]

/-- A concrete origin-form inbound request, for instantiating theorems. -/
def sample_get_request : Request :=
  { method := "GET"
    uri := { scheme := none, authority := none,
             pathAndQuery := some "/docs/report.pdf?rev=3" }
    headers := [("Host", "localhost:3000"), ("Authorization", "Basic xyz")]
    body := "" }

/-- A concrete authority-form inbound request (the shape hyper produces
for a CONNECT request): its URI has no path-and-query component. -/
def sample_connect_request : Request :=
  { method := "CONNECT"
    uri := { scheme := none, authority := some "example.com:443",
             pathAndQuery := none }
    headers := [("Host", "example.com:443")]
    body := "" }

/-- C1: for every inbound request the forwarder races the upstream call
against a 5-second budget (the oracle is consulted at exactly
`Duration.from_secs 5`) and produces exactly one of three outcomes: an
in-budget upstream response is returned unmodified, an upstream failure
yields the synthetic "closed" response, and an elapsed budget yields the
synthetic "timeout" response. -/
theorem claim1_race_outcomes (req : Request) (base : UriParts)
    (upstreamIo : Duration → Request → RaceOutcome) (u : UriParts)
    (h : Uri.from_parts { base with pathAndQuery := req.uri.pathAndQuery } = some u) :
    (∀ r, upstreamIo (Duration.from_secs 5) (build_outgoing req u) =
        .completed (.ok r) →
      proxy_request req base upstreamIo = some (.ok r)) ∧
    (∀ e, upstreamIo (Duration.from_secs 5) (build_outgoing req u) =
        .completed (.error e) →
      proxy_request req base upstreamIo =
        some (create_error_response "closed")) ∧
    (upstreamIo (Duration.from_secs 5) (build_outgoing req u) = .elapsed →
      proxy_request req base upstreamIo =
        some (create_error_response "timeout")) := by
  refine ⟨fun r hr => ?_, fun e he => ?_, fun ht => ?_⟩
  · simp only [proxy_request, h, hr]
  · simp only [proxy_request, h, he]
  · simp only [proxy_request, h, ht]

/-- Witness for C1 at a concrete request, upstream target and an oracle
whose budget elapses. -/
theorem claim1_race_outcomes_witness :
    Uri.from_parts { upstream_uri "203.0.113.5:8080" with
        pathAndQuery := sample_get_request.uri.pathAndQuery } =
      some { scheme := some "http", authority := some "203.0.113.5:8080",
             pathAndQuery := some "/docs/report.pdf?rev=3" } ∧
    proxy_request sample_get_request (upstream_uri "203.0.113.5:8080")
        (fun _ _ => .elapsed) =
      some (create_error_response "timeout") :=
  ⟨rfl,
   (claim1_race_outcomes sample_get_request (upstream_uri "203.0.113.5:8080")
      (fun _ _ => .elapsed) _ rfl).2.2 rfl⟩

set_option maxRecDepth 16384 in
/-- C2: the synthetic failure response always has status 207, the fixed
content-type header, and the templated body; for both reason strings the
body is a DAV: multistatus document with exactly one response element,
href `/{reason}/`, upper-cased displayname, a collection resourcetype and
the literal status `HTTP/1.1 200 OK`. -/
theorem claim2_synthesizer_shape :
    (∀ reason, create_error_response reason =
      .ok { status := 207
            headers := [("Content-Type", "application/xml; charset=utf-8")]
            body := error_body reason }) ∧
    (countSubstr (error_body "timeout") "<d:response>" = 1 ∧
     occursIn (error_body "timeout") "<d:multistatus xmlns:d=\"DAV:\">" = true ∧
     occursIn (error_body "timeout") "<d:href>/timeout/</d:href>" = true ∧
     occursIn (error_body "timeout")
       "<d:displayname>TIMEOUT</d:displayname>" = true ∧
     occursIn (error_body "timeout")
       "<d:resourcetype><d:collection/></d:resourcetype>" = true ∧
     occursIn (error_body "timeout") "<d:status>HTTP/1.1 200 OK</d:status>" = true) ∧
    (countSubstr (error_body "closed") "<d:response>" = 1 ∧
     occursIn (error_body "closed") "<d:multistatus xmlns:d=\"DAV:\">" = true ∧
     occursIn (error_body "closed") "<d:href>/closed/</d:href>" = true ∧
     occursIn (error_body "closed")
       "<d:displayname>CLOSED</d:displayname>" = true ∧
     occursIn (error_body "closed")
       "<d:resourcetype><d:collection/></d:resourcetype>" = true ∧
     occursIn (error_body "closed") "<d:status>HTTP/1.1 200 OK</d:status>" = true) :=
  ⟨fun _ => rfl, by decide, by decide⟩

/-- C3: for every target host:port and present path-and-query `p`, the
composed upstream URI is accepted by `Uri.from_parts` and renders exactly
as `http://{host}:{port}{p}`, the scheme being `http` and `p` preserved
verbatim. -/
theorem claim3_uri_composition (host port p : String) :
    Uri.from_parts { upstream_uri (host ++ ":" ++ port) with
        pathAndQuery := some p } =
      some { scheme := some "http", authority := some (host ++ ":" ++ port),
             pathAndQuery := some p } ∧
    Uri.render { scheme := some "http", authority := some (host ++ ":" ++ port),
                 pathAndQuery := some p } =
      "http://" ++ host ++ ":" ++ port ++ p := by
  refine ⟨rfl, ?_⟩
  show "http" ++ "://" ++ (host ++ ":" ++ port) ++ p =
    "http://" ++ host ++ ":" ++ port ++ p
  rw [show ("http" ++ "://" : String) = "http://" from rfl]
  simp [String.append_assoc]

/-- C4: the outgoing request keeps the inbound method, moves the inbound
body, carries exactly the inbound header list (so any header lookup,
`Host` included, is unchanged and nothing is added or removed), and only
the URI is replaced. -/
theorem claim4_outgoing_request (req : Request) (new_uri : UriParts) :
    (build_outgoing req new_uri).method = req.method ∧
    (build_outgoing req new_uri).uri = new_uri ∧
    (build_outgoing req new_uri).body = req.body ∧
    (build_outgoing req new_uri).headers = req.headers ∧
    (build_outgoing req new_uri).headers.lookup "Host" =
      req.headers.lookup "Host" ∧
    (∀ kv : String × String,
      kv ∈ (build_outgoing req new_uri).headers ↔ kv ∈ req.headers) :=
  ⟨rfl, rfl, rfl, rfl, rfl, fun _ => Iff.rfl⟩

/-- C5: the claim that every inbound request yields exactly one response
fails on an authority-form (CONNECT) request: its URI has no
path-and-query, `Uri::from_parts` rejects the composed parts, and the
`.expect("valid URI")` at main.rs line 17 panics (modelled as `none`), so
no response at all is produced for that request. -/
theorem claim5_connect_request_no_response :
    proxy_request sample_connect_request (upstream_uri "203.0.113.5:8080")
      (fun _ _ => .elapsed) = none := rfl

/-- C6: the claim that an absent path-and-query defaults to `/` fails:
composing the upstream parts with an absent path-and-query is rejected by
`Uri::from_parts` (http 0.2 requires a path-and-query when a scheme is
present), so the handler panics instead of forwarding with `/`. -/
theorem claim6_absent_path_composition_fails :
    Uri.from_parts { upstream_uri "203.0.113.5:8080" with
      pathAndQuery := none } = none := rfl

/-- C7: URI composition is injective in the path-and-query argument: for
a fixed target, distinct path+query strings compose to upstream URIs with
distinct renderings. -/
theorem claim7_composition_injective (host port p1 p2 : String)
    (hne : p1 ≠ p2) :
    (Uri.from_parts { upstream_uri (host ++ ":" ++ port) with
        pathAndQuery := some p1 }).map Uri.render ≠
    (Uri.from_parts { upstream_uri (host ++ ":" ++ port) with
        pathAndQuery := some p2 }).map Uri.render := by
  intro h
  apply hne
  have h3 : ("http" ++ "://" ++ (host ++ ":" ++ port)) ++ p1 =
      ("http" ++ "://" ++ (host ++ ":" ++ port)) ++ p2 :=
    Option.some.inj h
  have h4 := congrArg String.data h3
  simp only [String.data_append] at h4
  exact String.ext (List.append_cancel_left h4)

/-- Witness for C7 at a fixed target and two concrete distinct
path+query strings. -/
theorem claim7_composition_injective_witness :
    ("/a?x=1" : String) ≠ "/a?x=2" ∧
    (Uri.from_parts { upstream_uri ("example.com" ++ ":" ++ "80") with
        pathAndQuery := some "/a?x=1" }).map Uri.render ≠
    (Uri.from_parts { upstream_uri ("example.com" ++ ":" ++ "80") with
        pathAndQuery := some "/a?x=2" }).map Uri.render :=
  ⟨by decide,
   claim7_composition_injective "example.com" "80" "/a?x=1" "/a?x=2" (by decide)⟩

/-- C10: the handler never returns the error branch of its result type,
and every completed upstream failure, of any error kind, maps to the
"closed" synthetic response. -/
theorem claim10_error_branch_unreachable (req : Request) (base : UriParts)
    (upstreamIo : Duration → Request → RaceOutcome) :
    (∀ e, proxy_request req base upstreamIo ≠ some (.error e)) ∧
    (∀ u, Uri.from_parts { base with pathAndQuery := req.uri.pathAndQuery } =
        some u →
      ∀ e, upstreamIo (Duration.from_secs 5) (build_outgoing req u) =
          .completed (.error e) →
        proxy_request req base upstreamIo =
          some (create_error_response "closed")) := by
  constructor
  · intro e
    unfold proxy_request
    cases hfp : Uri.from_parts { base with pathAndQuery := req.uri.pathAndQuery } with
    | none => simp
    | some u =>
      cases hio : upstreamIo (Duration.from_secs 5) (build_outgoing req u) with
      | elapsed => simp [hio, create_error_response]
      | completed res =>
        cases res with
        | ok r => simp [hio]
        | error e2 => simp [hio, create_error_response]
  · intro u hu e he
    simp only [proxy_request, hu, he]

/-- Witness for C10 at a concrete request and an oracle failing with a
non-connection error kind (a malformed upstream response). -/
theorem claim10_error_branch_unreachable_witness :
    proxy_request sample_get_request (upstream_uri "203.0.113.5:8080")
      (fun _ _ => .completed (.error HyperError.malformedResponse)) =
      some (create_error_response "closed") :=
  (claim10_error_branch_unreachable sample_get_request
      (upstream_uri "203.0.113.5:8080")
      (fun _ _ => .completed (.error HyperError.malformedResponse))).2
    _ rfl HyperError.malformedResponse rfl

/-- C8 (counterexample): for the malformed remote argument (no `:`) the
program does not print usage — it prints the dedicated error line and
exits; the trace contains no `printUsage` effect. -/
theorem claim8_counterexample :
    main_start ["badhost"] =
      [.eprintLine "A remote port is required (REMOTE_ADDR:PORT)",
       .exitNonZero] ∧
    Effect.printUsage ∉ main_start ["badhost"] := by
  exact ⟨by decide, by decide⟩

/-- C8 (amended): an option-parse failure prints the failure and the
usage text and exits non-zero; a missing or duplicated positional remote
argument prints the usage text and exits non-zero; a remote argument
without `:` prints the error line `A remote port is required
(REMOTE_ADDR:PORT)` (not the usage text) and exits non-zero.  In every
case the trace is exactly as below — in particular no socket is bound
and nothing is served. -/
theorem claim8_amended (args : List String) :
    (∀ e, getopts_parse args = .error e →
      main_start args = [.eprintFail e, .printUsage, .exitNonZero]) ∧
    (∀ m, getopts_parse args = .ok m → m.free.length ≠ 1 →
      main_start args = [.printUsage, .exitNonZero]) ∧
    (∀ m r, getopts_parse args = .ok m → m.free = [r] →
      str_contains r ':' = false →
      main_start args =
        [.eprintLine "A remote port is required (REMOTE_ADDR:PORT)",
         .exitNonZero]) := by
  refine ⟨fun e he => ?_, fun m hm hlen => ?_, fun m r hm hr hc => ?_⟩
  · simp only [main_start, he]
  · obtain ⟨free, optB, optL⟩ := m
    cases free with
    | nil => simp only [main_start, hm]
    | cons a t =>
      cases t with
      | nil => exact absurd rfl hlen
      | cons b t2 => simp only [main_start, hm]
  · obtain ⟨free, optB, optL⟩ := m
    simp only at hr
    subst hr
    simp [main_start, hm, hc]

/-- Witness for C8 (amended) at a malformed remote and at two positional
arguments. -/
theorem claim8_amended_witness :
    getopts_parse ["badremote"] = .ok ⟨["badremote"], none, none⟩ ∧
    str_contains "badremote" ':' = false ∧
    main_start ["badremote"] =
      [.eprintLine "A remote port is required (REMOTE_ADDR:PORT)",
       .exitNonZero] ∧
    getopts_parse ["a:1", "b:2"] = .ok ⟨["a:1", "b:2"], none, none⟩ ∧
    main_start ["a:1", "b:2"] = [.printUsage, .exitNonZero] :=
  ⟨rfl, by decide,
   (claim8_amended ["badremote"]).2.2 ⟨["badremote"], none, none⟩ "badremote"
     rfl rfl (by decide),
   rfl,
   (claim8_amended ["a:1", "b:2"]).2.1 ⟨["a:1", "b:2"], none, none⟩ rfl
     (by decide)⟩

/-- C9 (counterexample): on a default invocation the listening banner
printed is `Listening on http://127.0.0.1:0` — the configured port `0`
— which is not the address with the OS-chosen ephemeral port (such a
port is non-zero, e.g. 49152): the program never queries the bound
socket for its actual port. -/
theorem claim9_counterexample :
    main_start ["198.51.100.7:9000"] =
      [.printLine "The upstream is http://198.51.100.7:9000",
       .bindSocket ⟨IpAddr.v4 127 0 0 1, 0⟩,
       .printLine "Listening on http://127.0.0.1:0",
       .serve] ∧
    "Listening on http://127.0.0.1:0" ≠ "Listening on http://127.0.0.1:49152" := by
  exact ⟨by decide, by decide⟩

/-- C9 (amended): a default invocation (one positional argument, no `-b`
or `-l`) prints the resolved upstream URL, binds `127.0.0.1` at the
configured port `0` (so the OS assigns an ephemeral port), prints the
configured listen address `127.0.0.1:0` — not the OS-chosen port — and
only then serves. -/
theorem claim9_amended (remote : String)
    (h0 : getopts_parse [remote] = .ok ⟨[remote], none, none⟩)
    (h1 : str_contains remote ':' = true)
    (h2 : valid_authority remote = true) :
    main_start [remote] =
      [.printLine ("The upstream is http://" ++ remote),
       .bindSocket ⟨IpAddr.v4 127 0 0 1, 0⟩,
       .printLine "Listening on http://127.0.0.1:0",
       .serve] := by
  simp only [main_start, h0, h1, h2]
  rfl

/-- Witness for C9 (amended) at a concrete default invocation. -/
theorem claim9_amended_witness :
    getopts_parse ["203.0.113.5:8080"] =
      .ok ⟨["203.0.113.5:8080"], none, none⟩ ∧
    str_contains "203.0.113.5:8080" ':' = true ∧
    valid_authority "203.0.113.5:8080" = true ∧
    main_start ["203.0.113.5:8080"] =
      [.printLine "The upstream is http://203.0.113.5:8080",
       .bindSocket ⟨IpAddr.v4 127 0 0 1, 0⟩,
       .printLine "Listening on http://127.0.0.1:0",
       .serve] :=
  ⟨rfl, by decide, by decide,
   claim9_amended "203.0.113.5:8080" rfl rfl rfl⟩

end Webdav
